import Mathlib

/-!
Shallow embedding of src/code/esp32_bidirectional_processor.py
(class ESP32BidirectionalProcessor): the ingestion endpoint
receive_sensor_data, the rule-based classifier run_inference,
update_statistics, clear_data and health_check, together with the
bounded chart-history deques (collections.deque with maxlen 100).

Python floats are modelled in exact arithmetic as rationals, extended
with the IEEE special values that np.float32 conversion admits
(nan, +inf, -inf).  The randomized confidence drawn by
random.uniform(0.6, 0.9) in run_inference is passed explicitly as an
input to each request, so one request of the server is a function of
(payload, random draw, clock reading).  Timestamps are opaque strings.
-/

namespace ESP32

/-- A float32 value: a finite rational or one of the IEEE specials. -/
inductive F32 where
  | fin (q : ℚ)
  | nan
  | inf
  | ninf
deriving DecidableEq, Repr

/-- Python comparison x >= t for a float x against a finite rational t:
nan compares false, +inf compares true, -inf compares false. -/
def F32.ge : F32 → ℚ → Bool
  | .fin q, t => decide (t ≤ q)
  | .nan, _ => false
  | .inf, _ => true
  | .ninf, _ => false

/-- IEEE multiplication of a float by a nonnegative integer count
(used for avg * prev_total; prev_total is a Python int >= 0). -/
def F32.mulNat : F32 → Nat → F32
  | .fin q, n => .fin (q * n)
  | .nan, _ => .nan
  | .inf, n => if n = 0 then .nan else .inf
  | .ninf, n => if n = 0 then .nan else .ninf

/-- IEEE addition of two floats. -/
def F32.add : F32 → F32 → F32
  | .fin a, .fin b => .fin (a + b)
  | .fin _, .nan => .nan
  | .fin _, .inf => .inf
  | .fin _, .ninf => .ninf
  | .nan, _ => .nan
  | .inf, .fin _ => .inf
  | .inf, .inf => .inf
  | .inf, .ninf => .nan
  | .inf, .nan => .nan
  | .ninf, .fin _ => .ninf
  | .ninf, .inf => .nan
  | .ninf, .ninf => .ninf
  | .ninf, .nan => .nan

/-- IEEE division of a float by a positive integer count (every call
site divides by prev_total + 1 >= 1). -/
def F32.divPos : F32 → Nat → F32
  | .fin q, n => .fin (q / n)
  | .nan, _ => .nan
  | .inf, _ => .inf
  | .ninf, _ => .ninf

/-- A JSON array element as seen by np.array(sensor_values, dtype=np.float32):
either a value that converts to a float32 (a finite number, or a nan or
infinity literal, both of which numpy accepts without error), or a value
whose conversion raises ValueError or TypeError. -/
inductive JVal where
  | num (q : ℚ)
  | nan
  | inf
  | ninf
  | nonNumeric
deriving DecidableEq, Repr

/-- Conversion of one JSON element to float32; none models the raised
ValueError or TypeError. -/
def JVal.toF32 : JVal → Option F32
  | .num q => some (.fin q)
  | .nan => some .nan
  | .inf => some .inf
  | .ninf => some .ninf
  | .nonNumeric => none

/-- np.array(sensor_values, dtype=np.float32): converts every element
or fails the whole conversion. -/
def toF32List : List JVal → Option (List F32)
  | [] => some []
  | v :: vs =>
      match v.toF32, toF32List vs with
      | some a, some as => some (a :: as)
      | _, _ => none

/-- self.sensor_names in ESP32BidirectionalProcessor.__init__. -/
def sensor_names : List String :=
  ["MQ2", "MQ3", "MQ4", "MQ135", "MQ6", "MQ7", "MQ8", "MQ9"]

/-- self.num_sensors = len(self.sensor_names). -/
def num_sensors : Nat := sensor_names.length

/-- self.max_data_points, the deque maxlen for every chart series. -/
def max_data_points : Nat := 100

/-- The designated channel index in run_inference:
self.sensor_names.index("MQ7"), with fallback 5 on ValueError. -/
def mq7_index : Nat :=
  if "MQ7" ∈ sensor_names then sensor_names.indexOf "MQ7" else 5

/-- The (prediction, confidence, probabilities) triple returned by
run_inference on success. -/
structure InferenceResult where
  prediction : Nat
  confidence : ℚ
  probabilities : List ℚ
deriving DecidableEq, Repr

/-- The threshold rule in run_inference: MQ7 value >= 0.7 gives class 1
(DEGRADED), otherwise class 0 (FRESH). -/
def rulePrediction (mq7_value : F32) : Nat :=
  if mq7_value.ge (7/10) then 1 else 0

/-- The probability vector run_inference builds around the prediction. -/
def ruleProbs (prediction : Nat) (confidence : ℚ) : List ℚ :=
  if prediction = 1 then [1 - confidence, confidence, 0]
  else [confidence, 1 - confidence, 0]

/-- ESP32BidirectionalProcessor.run_inference.  randConf is the value
drawn by random.uniform(0.6, 0.9).  none models the except branch that
returns (None, None, None) when reading the MQ7 index raises. -/
def run_inference (sensor_data : List F32) (randConf : ℚ) :
    Option InferenceResult :=
  match sensor_data[mq7_index]? with
  | none => none
  | some mq7_value =>
      some ⟨rulePrediction mq7_value, randConf,
            ruleProbs (rulePrediction mq7_value) randConf⟩

/-- ESP32BidirectionalProcessor.interpret_prediction. -/
def interpret_prediction (prediction : Nat) : String :=
  if prediction = 0 then "FRESH"
  else if prediction = 1 then "DEGRADED"
  else if prediction = 2 then "ERROR"
  else "UNKNOWN"

/-- self.statistics.  avg_sensors is stored per sensor name; here it is
the list of the 8 per-name averages, aligned with sensor_names. -/
structure Statistics where
  total_requests : Nat
  fresh_count : Nat
  degraded_count : Nat
  error_count : Nat
  avg_confidence : ℚ
  avg_sensors : List F32
deriving DecidableEq, Repr

/-- ESP32BidirectionalProcessor.update_statistics.  request_count is
self.request_count at call time (already incremented for the current
request); prev_total = max(total_requests - 1, 0) is Nat subtraction.
The zipWith matches the per-name loop because avg_sensors and
sensor_data both have length num_sensors at every call site. -/
def update_statistics (stats : Statistics) (request_count : Nat)
    (prediction : Nat) (confidence : ℚ) (sensor_data : List F32) :
    Statistics :=
  let prev_total : Nat := stats.total_requests - 1
  let stats1 :=
    if prediction = 0 then
      { stats with fresh_count := stats.fresh_count + 1 }
    else if prediction = 1 then
      { stats with degraded_count := stats.degraded_count + 1 }
    else if prediction = 2 then
      { stats with error_count := stats.error_count + 1 }
    else stats
  let stats2 :=
    if 0 < prev_total then
      { stats1 with
        avg_confidence :=
          (stats1.avg_confidence * (prev_total : ℚ) + confidence)
            / ((prev_total : ℚ) + 1),
        avg_sensors :=
          List.zipWith
            (fun avg x => ((avg.mulNat prev_total).add x).divPos (prev_total + 1))
            stats1.avg_sensors sensor_data }
    else
      { stats1 with
        avg_confidence := confidence,
        avg_sensors := sensor_data }
  { stats2 with total_requests := request_count }

/-- self.latest_data. -/
structure LatestData where
  sensors : List F32
  prediction : Nat
  confidence : ℚ
  interpretation : String
  timestamp : String
deriving DecidableEq, Repr

/-- The mutable state of one ESP32BidirectionalProcessor instance:
request counter, statistics, the unbounded logs, latest_data, the four
bounded chart series (sensor_values as one series per sensor name),
and whether the TFLite interpreter loaded. -/
structure ServerState where
  request_count : Nat
  interpreter_loaded : Bool
  statistics : Statistics
  sensor_data_log : List (List F32)
  predictions_log : List Nat
  latest_data : LatestData
  chart_timestamps : List String
  chart_sensor_values : List (List F32)
  chart_predictions : List Nat
  chart_confidences : List ℚ
deriving DecidableEq, Repr

/-- Append on a collections.deque with maxlen max_data_points: keep the
newest max_data_points entries. -/
def dequeAppend {α : Type} (xs : List α) (x : α) : List α :=
  let ys := xs ++ [x]
  ys.drop (ys.length - max_data_points)

/-- A JSON value found under the "sensors" key: an array or not. -/
inductive SVal where
  | arr (vals : List JVal)
  | notArr
deriving DecidableEq, Repr

/-- A value in a JSON response body. -/
inductive RVal where
  | b (x : Bool)
  | n (x : Nat)
  | q (x : ℚ)
  | s (x : String)
  | f (x : F32)
  | obj (fields : List (String × RVal))

/-- An HTTP response: status code and JSON object body. -/
abbrev Resp := Nat × List (String × RVal)

/-- The state written by a successful request, under the data lock:
increment request_count, update_statistics, append to the raw logs,
replace latest_data, append to every chart deque. -/
def acceptState (st : ServerState) (sensor_data : List F32)
    (res : InferenceResult) (now : String) : ServerState :=
  let rc := st.request_count + 1
  { request_count := rc,
    interpreter_loaded := st.interpreter_loaded,
    statistics :=
      update_statistics st.statistics rc res.prediction res.confidence
        sensor_data,
    sensor_data_log := st.sensor_data_log ++ [sensor_data],
    predictions_log := st.predictions_log ++ [res.prediction],
    latest_data :=
      ⟨sensor_data, res.prediction, res.confidence,
       interpret_prediction res.prediction, now⟩,
    chart_timestamps := dequeAppend st.chart_timestamps now,
    chart_sensor_values :=
      List.zipWith dequeAppend st.chart_sensor_values sensor_data,
    chart_predictions := dequeAppend st.chart_predictions res.prediction,
    chart_confidences := dequeAppend st.chart_confidences res.confidence }

/-- The 200 response body of a successful request. -/
def acceptResp (st : ServerState) (res : InferenceResult) : Resp :=
  (200,
   [("success", RVal.b true),
    ("prediction", RVal.n res.prediction),
    ("confidence", RVal.q res.confidence),
    ("interpretation", RVal.s (interpret_prediction res.prediction)),
    ("request_id", RVal.n (st.request_count + 1))])

/-- The error message of the first validation branch, with the literal
braces of the Python f-string written as escapes. -/
def invalid_format_error : String :=
  "Invalid request format. Expected: \x7b\"sensors\": [val1, val2, ..., val8]\x7d"

/-- The POST /api/sensor-data handler receive_sensor_data.  body none
models a request whose parsed JSON is None; an empty object is falsy in
Python, so both take the invalid-format branch.  Validation order is the
order in the source: format, array check, arity, float conversion,
inference, then the locked state update. -/
def receive_sensor_data (st : ServerState)
    (body : Option (List (String × SVal))) (randConf : ℚ) (now : String) :
    Resp × ServerState :=
  match body with
  | none => ((400, [("error", RVal.s invalid_format_error)]), st)
  | some kvs =>
    if kvs.isEmpty then
      ((400, [("error", RVal.s invalid_format_error)]), st)
    else
      match kvs.lookup "sensors" with
      | none => ((400, [("error", RVal.s invalid_format_error)]), st)
      | some SVal.notArr =>
          ((400, [("error", RVal.s "sensors must be an array")]), st)
      | some (SVal.arr vals) =>
          if vals.length ≠ num_sensors then
            ((400,
              [("error",
                RVal.s ("Expected " ++ toString num_sensors
                  ++ " sensor values, got " ++ toString vals.length))]), st)
          else
            match toF32List vals with
            | none =>
                ((400,
                  [("error",
                    RVal.s "Invalid sensor values: could not convert to float32")]),
                 st)
            | some sensor_data =>
                match run_inference sensor_data randConf with
                | none => ((500, [("error", RVal.s "Inference failed")]), st)
                | some res =>
                    (acceptResp st res, acceptState st sensor_data res now)

/-- JSON encoding of latest_data as it appears in the health body. -/
def latestRVal (ld : LatestData) : RVal :=
  RVal.obj
    [("sensors", RVal.obj (sensor_names.zip (ld.sensors.map RVal.f))),
     ("prediction", RVal.n ld.prediction),
     ("confidence", RVal.q ld.confidence),
     ("interpretation", RVal.s ld.interpretation),
     ("timestamp", RVal.s ld.timestamp)]

/-- The GET /api/health handler health_check. -/
def health_check (st : ServerState) (now : String) : Resp :=
  (200,
   [("status", RVal.s "healthy"),
    ("model_loaded", RVal.b st.interpreter_loaded),
    ("total_requests", RVal.n st.request_count),
    ("latest_data", latestRVal st.latest_data),
    ("server_time", RVal.s now)])

/-- The POST /api/clear-data handler clear_data: empty every chart
deque, reset statistics keeping total_requests = self.request_count,
reset latest_data.  request_count and the raw logs are untouched. -/
def clear_data (st : ServerState) (now : String) : Resp × ServerState :=
  let st2 : ServerState :=
    { st with
      chart_timestamps := [],
      chart_sensor_values := st.chart_sensor_values.map (fun _ => []),
      chart_predictions := [],
      chart_confidences := [],
      statistics :=
        { total_requests := st.request_count,
          fresh_count := 0,
          degraded_count := 0,
          error_count := 0,
          avg_confidence := 0,
          avg_sensors := List.replicate num_sensors (F32.fin 0) },
      latest_data :=
        { sensors := List.replicate num_sensors (F32.fin 0),
          prediction := 0,
          confidence := 0,
          interpretation := "UNKNOWN",
          timestamp := now } }
  ((200, [("success", RVal.b true), ("message", RVal.s "Data cleared")]), st2)

/-- The state right after __init__ (before any request); ts0 is the
startup clock reading, loaded whether the TFLite model loaded. -/
def initState (ts0 : String) (loaded : Bool) : ServerState :=
  { request_count := 0,
    interpreter_loaded := loaded,
    statistics :=
      { total_requests := 0, fresh_count := 0, degraded_count := 0,
        error_count := 0, avg_confidence := 0,
        avg_sensors := List.replicate num_sensors (F32.fin 0) },
    sensor_data_log := [],
    predictions_log := [],
    latest_data :=
      { sensors := List.replicate num_sensors (F32.fin 0),
        prediction := 0, confidence := 0,
        interpretation := "UNKNOWN", timestamp := ts0 },
    chart_timestamps := [],
    chart_sensor_values := sensor_names.map (fun _ => []),
    chart_predictions := [],
    chart_confidences := [] }

/-- A well-formed payload carrying the finite channel values qs. -/
def mkBody (qs : List ℚ) : Option (List (String × SVal)) :=
  some [("sensors", SVal.arr (qs.map JVal.num))]

/-- The result run_inference produces on an all-finite 8-value reading. -/
def mkRes (qs : List ℚ) (c : ℚ) : InferenceResult :=
  ⟨rulePrediction (F32.fin (qs.getD 5 0)), c,
   ruleProbs (rulePrediction (F32.fin (qs.getD 5 0))) c⟩

/-- Drive one server instance through a list of well-formed requests:
channel values, random confidence draw, clock reading. -/
def runReqs (st : ServerState) (rs : List (List ℚ × ℚ × String)) :
    ServerState :=
  rs.foldl
    (fun s r => (receive_sensor_data s (mkBody r.1) r.2.1 r.2.2).2) st

/-- An external event hitting the server: a sensor POST or a clear POST. -/
inductive Event where
  | sensorPost (body : Option (List (String × SVal))) (randConf : ℚ)
      (now : String)
  | clearPost (now : String)

/-- State transition of one event. -/
def applyEvent (st : ServerState) : Event → ServerState
  | .sensorPost body c now => (receive_sensor_data st body c now).2
  | .clearPost now => (clear_data st now).2

/-- Drive one server instance through any sequence of events. -/
def runEvents (st : ServerState) (es : List Event) : ServerState :=
  es.foldl applyEvent st

/-- The last max_data_points entries of a list; what the bounded deque
retains after its contents were appended in order. -/
def lastK {α : Type} (xs : List α) : List α :=
  xs.drop (xs.length - max_data_points)

lemma mq7_index_eq : mq7_index = 5 := by decide

lemma toF32List_map_num (qs : List ℚ) :
    toF32List (qs.map JVal.num) = some (qs.map F32.fin) := by
  induction qs with
  | nil => rfl
  | cons q qs ih => simp [toF32List, JVal.toF32, ih]

lemma toF32List_length :
    ∀ (vals : List JVal) (sd : List F32),
      toF32List vals = some sd → sd.length = vals.length := by
  intro vals
  induction vals with
  | nil => intro sd h; simp [toF32List] at h; simp [← h]
  | cons v vs ih =>
      intro sd h
      cases hv : v.toF32 with
      | none => simp [toF32List, hv] at h
      | some a =>
          cases hvs : toF32List vs with
          | none => simp [toF32List, hv, hvs] at h
          | some as =>
              simp only [toF32List, hv, hvs] at h
              cases h
              simp [List.length_cons, ih as hvs]

lemma lookup_isEmpty_false {kvs : List (String × SVal)} {k : String}
    {v : SVal} (h : kvs.lookup k = some v) : kvs.isEmpty = false := by
  cases kvs with
  | nil => simp [List.lookup] at h
  | cons p ps => rfl

lemma run_inference_get {sd : List F32} {x : F32}
    (h : sd[mq7_index]? = some x) (c : ℚ) :
    run_inference sd c
      = some ⟨rulePrediction x, c, ruleProbs (rulePrediction x) c⟩ := by
  simp [run_inference, h]

lemma run_inference_prediction_cases {sd : List F32} {c : ℚ}
    {res : InferenceResult} (h : run_inference sd c = some res) :
    res.prediction = 0 ∨ res.prediction = 1 := by
  cases hx : sd[mq7_index]? with
  | none => simp [run_inference, hx] at h
  | some x =>
      rw [run_inference_get hx] at h
      have hp : res.prediction = rulePrediction x := by
        cases h; rfl
      rw [hp, rulePrediction]
      by_cases hb : x.ge (7/10) = true
      · simp [hb]
      · simp [hb]

lemma receive_valid_eq (st : ServerState) (kvs : List (String × SVal))
    (vals : List JVal) (sd : List F32) (c : ℚ) (ts : String)
    (hlk : kvs.lookup "sensors" = some (SVal.arr vals))
    (hlen : vals.length = num_sensors)
    (htf : toF32List vals = some sd) :
    ∃ res, run_inference sd c = some res
      ∧ receive_sensor_data st (some kvs) c ts
          = (acceptResp st res, acceptState st sd res ts) := by
  have hsd : sd.length = num_sensors := (toF32List_length _ _ htf).trans hlen
  have h5 : mq7_index < sd.length := by rw [hsd, mq7_index_eq]; decide
  have hx : sd[mq7_index]? = some sd[mq7_index] :=
    List.getElem?_eq_getElem h5
  refine ⟨_, run_inference_get hx c, ?_⟩
  have he := lookup_isEmpty_false hlk
  simp [receive_sensor_data, he, hlk, hlen, htf, run_inference_get hx c]

lemma receive_cases (st : ServerState)
    (body : Option (List (String × SVal))) (c : ℚ) (ts : String) :
    (∃ sd res, run_inference sd c = some res
        ∧ receive_sensor_data st body c ts
            = (acceptResp st res, acceptState st sd res ts))
    ∨ (∃ m, receive_sensor_data st body c ts
          = ((400, [("error", RVal.s m)]), st))
    ∨ receive_sensor_data st body c ts
        = ((500, [("error", RVal.s "Inference failed")]), st) := by
  cases body with
  | none => right; left; exact ⟨invalid_format_error, rfl⟩
  | some kvs =>
      by_cases he : kvs.isEmpty
      · right; left
        refine ⟨invalid_format_error, ?_⟩
        simp [receive_sensor_data, he]
      · cases hlk : kvs.lookup "sensors" with
        | none =>
            right; left
            refine ⟨invalid_format_error, ?_⟩
            simp [receive_sensor_data, he, hlk]
        | some sv =>
            cases sv with
            | notArr =>
                right; left
                refine ⟨"sensors must be an array", ?_⟩
                simp [receive_sensor_data, he, hlk]
            | arr vals =>
                by_cases hlen : vals.length = num_sensors
                · cases htf : toF32List vals with
                  | none =>
                      right; left
                      refine ⟨"Invalid sensor values: could not convert to float32", ?_⟩
                      simp [receive_sensor_data, he, hlk, hlen, htf]
                  | some sd =>
                      obtain ⟨res, hri, heq⟩ :=
                        receive_valid_eq st kvs vals sd c ts hlk hlen htf
                      left; exact ⟨sd, res, hri, heq⟩
                · right; left
                  refine ⟨"Expected " ++ toString num_sensors
                    ++ " sensor values, got " ++ toString vals.length, ?_⟩
                  simp [receive_sensor_data, he, hlk, hlen]

lemma dequeAppend_lastK {α : Type} (xs : List α) (x : α) :
    dequeAppend (lastK xs) x = lastK (xs ++ [x]) := by
  have hK : max_data_points = 100 := rfl
  rcases le_or_lt xs.length max_data_points with h | h
  · have h1 : xs.length - max_data_points = 0 := Nat.sub_eq_zero_of_le h
    simp [dequeAppend, lastK, h1]
  · have h2 : xs.length - (xs.length - max_data_points) = max_data_points := by
      omega
    simp only [dequeAppend, lastK, List.length_append, List.length_drop,
      List.length_singleton, h2]
    have h3 : max_data_points + 1 - max_data_points = 1 := by omega
    rw [h3, List.drop_append_eq_append_drop, List.drop_append_eq_append_drop,
      List.drop_drop, List.length_drop, h2]
    have h4 : xs.length - max_data_points + 1
        = xs.length + 1 - max_data_points := by omega
    have h5 : 1 - max_data_points = 0 := by omega
    have h6 : xs.length + 1 - max_data_points - xs.length = 0 := by omega
    rw [h4, h5, h6]

lemma lastK_length {α : Type} (xs : List α) :
    (lastK xs).length = min xs.length max_data_points := by
  simp only [lastK, List.length_drop]
  omega

lemma lastK_head {α : Type} (xs : List α) :
    (lastK xs).head? = xs[xs.length - max_data_points]? := by
  rw [lastK, List.head?_eq_getElem?, List.getElem?_drop]
  norm_num

lemma getElem?_zipWith_some {α β γ : Type} (f : α → β → γ) :
    ∀ (as : List α) (bs : List β) (i : Nat) (a : α) (b : β),
      as[i]? = some a → bs[i]? = some b →
      (List.zipWith f as bs)[i]? = some (f a b) := by
  intro as
  induction as with
  | nil => intro bs i a b ha; simp at ha
  | cons a0 as ih =>
      intro bs i a b ha hb
      cases bs with
      | nil => simp at hb
      | cons b0 bs =>
          cases i with
          | zero =>
              simp only [List.getElem?_cons_zero, Option.some.injEq] at ha hb
              simp [List.zipWith_cons_cons, ha, hb]
          | succ n =>
              simp only [List.getElem?_cons_succ] at ha hb
              simpa [List.zipWith_cons_cons] using ih bs n a b ha hb

lemma receive_mkBody_eq (st : ServerState) (qs : List ℚ)
    (h : qs.length = num_sensors) (c : ℚ) (ts : String) :
    receive_sensor_data st (mkBody qs) c ts
      = (acceptResp st (mkRes qs c),
         acceptState st (qs.map F32.fin) (mkRes qs c) ts) := by
  have h5 : 5 < qs.length := by rw [h]; decide
  have hx : (qs.map F32.fin)[mq7_index]? = some (F32.fin (qs.getD 5 0)) := by
    rw [mq7_index_eq, List.getElem?_map, List.getElem?_eq_getElem h5]
    simp [List.getD_eq_getElem?_getD, List.getElem?_eq_getElem h5]
  have hlk : ([("sensors", SVal.arr (qs.map JVal.num))]
      : List (String × SVal)).lookup "sensors"
      = some (SVal.arr (qs.map JVal.num)) := rfl
  obtain ⟨res, hri, heq⟩ :=
    receive_valid_eq st _ _ _ c ts hlk (by simpa using h)
      (toF32List_map_num qs)
  have hres : res = mkRes qs c := by
    have h2 := Option.some.inj ((run_inference_get hx c).symm.trans hri)
    rw [mkRes, ← h2]
  show receive_sensor_data st (some [("sensors", SVal.arr (qs.map JVal.num))]) c ts = _
  rw [heq, hres]

lemma runReqs_chart (ts0 : String) (ml : Bool) :
    ∀ (rs : List (List ℚ × ℚ × String)),
      (∀ r ∈ rs, r.1.length = num_sensors) →
      (runReqs (initState ts0 ml) rs).chart_timestamps
          = lastK (rs.map fun r => r.2.2)
      ∧ (runReqs (initState ts0 ml) rs).chart_predictions
          = lastK (rs.map fun r => rulePrediction (F32.fin (r.1.getD 5 0)))
      ∧ (runReqs (initState ts0 ml) rs).chart_confidences
          = lastK (rs.map fun r => r.2.1)
      ∧ (runReqs (initState ts0 ml) rs).chart_sensor_values.length
          = num_sensors
      ∧ ∀ i, i < num_sensors →
          (runReqs (initState ts0 ml) rs).chart_sensor_values[i]?
            = some (lastK (rs.map fun r => F32.fin (r.1.getD i 0))) := by
  intro rs
  induction rs using List.reverseRecOn with
  | nil =>
      intro _
      refine ⟨rfl, rfl, rfl, rfl, ?_⟩
      intro i hi
      show (sensor_names.map fun _ => ([] : List F32))[i]? = _
      rw [List.getElem?_map, List.getElem?_eq_getElem (show i < sensor_names.length from hi)]
      rfl
  | append_singleton l a ih =>
      intro h8
      have h8l : ∀ r ∈ l, r.1.length = num_sensors :=
        fun r hr => h8 r (List.mem_append_left _ hr)
      have ha : a.1.length = num_sensors :=
        h8 a (List.mem_append_right _ (List.mem_singleton_self a))
      obtain ⟨ht, hp, hc, hlen, hsv⟩ := ih h8l
      have hstep : runReqs (initState ts0 ml) (l ++ [a])
          = acceptState (runReqs (initState ts0 ml) l) (a.1.map F32.fin)
              (mkRes a.1 a.2.1) a.2.2 := by
        have hmk := receive_mkBody_eq (runReqs (initState ts0 ml) l)
          a.1 ha a.2.1 a.2.2
        simp only [runReqs, List.foldl_append, List.foldl_cons, List.foldl_nil]
        rw [show List.foldl
            (fun s r => (receive_sensor_data s (mkBody r.1) r.2.1 r.2.2).2)
            (initState ts0 ml) l = runReqs (initState ts0 ml) l from rfl]
        rw [hmk]
      rw [hstep]
      refine ⟨?_, ?_, ?_, ?_, ?_⟩
      · show dequeAppend (runReqs (initState ts0 ml) l).chart_timestamps a.2.2 = _
        rw [ht, dequeAppend_lastK, List.map_append]
        rfl
      · show dequeAppend (runReqs (initState ts0 ml) l).chart_predictions
            (mkRes a.1 a.2.1).prediction = _
        rw [hp, dequeAppend_lastK, List.map_append]
        rfl
      · show dequeAppend (runReqs (initState ts0 ml) l).chart_confidences
            (mkRes a.1 a.2.1).confidence = _
        rw [hc, dequeAppend_lastK, List.map_append]
        rfl
      · show (List.zipWith dequeAppend
            (runReqs (initState ts0 ml) l).chart_sensor_values
            (a.1.map F32.fin)).length = num_sensors
        rw [List.length_zipWith, hlen, List.length_map, ha, min_self]
      · intro i hi
        have hi' : i < a.1.length := by rw [ha]; exact hi
        have hsd : (a.1.map F32.fin)[i]? = some (F32.fin (a.1.getD i 0)) := by
          rw [List.getElem?_map, List.getElem?_eq_getElem hi']
          simp [List.getD_eq_getElem?_getD, List.getElem?_eq_getElem hi']
        have hz := getElem?_zipWith_some dequeAppend
          (runReqs (initState ts0 ml) l).chart_sensor_values
          (a.1.map F32.fin) i _ _ (hsv i hi) hsd
        show (List.zipWith dequeAppend
            (runReqs (initState ts0 ml) l).chart_sensor_values
            (a.1.map F32.fin))[i]? = _
        rw [hz, dequeAppend_lastK, List.map_append]
        rfl

lemma clear_error_count (st : ServerState) (now : String) :
    ((clear_data st now).2).statistics.error_count = 0 := rfl

lemma update_statistics_error_count {stats : Statistics} {rc p : Nat}
    {c : ℚ} {sd : List F32} (hp : p ≠ 2) :
    (update_statistics stats rc p c sd).error_count = stats.error_count := by
  by_cases h0 : p = 0
  · simp only [update_statistics, h0]
    split <;> rfl
  · by_cases h1 : p = 1
    · simp only [update_statistics, h0, h1, if_false, if_true]
      split <;> rfl
    · simp only [update_statistics, h0, h1, hp, if_false]
      split <;> rfl

lemma receive_error_count (st : ServerState)
    (body : Option (List (String × SVal))) (c : ℚ) (ts : String) :
    ((receive_sensor_data st body c ts).2).statistics.error_count
      = st.statistics.error_count := by
  rcases receive_cases st body c ts with ⟨sd, res, hri, heq⟩ | ⟨m, heq⟩ | heq
  · rw [heq]
    have hcases := run_inference_prediction_cases hri
    have hp : res.prediction ≠ 2 := by
      rcases hcases with h | h <;> simp [h]
    simp [acceptState, update_statistics_error_count hp]
  · rw [heq]
  · rw [heq]

lemma runEvents_error_count (es : List Event) :
    ∀ st : ServerState, st.statistics.error_count = 0 →
      (runEvents st es).statistics.error_count = 0 := by
  induction es with
  | nil => intro st h; exact h
  | cons e es ih =>
      intro st h
      simp only [runEvents, List.foldl_cons]
      refine ih (applyEvent st e) ?_
      cases e with
      | sensorPost body c now =>
          simp only [applyEvent]
          rw [receive_error_count st body c now]
          exact h
      | clearPost now => exact clear_error_count st now

/-- C1: the claim states that the running means maintained by
update_statistics equal the arithmetic mean of all accepted values.
Evaluated at the failing input (two accepted requests with confidences
0.6 and 0.9 and channel values all 0 then all 1), the code yields
avg_confidence 0.9 and per-channel averages 1, while the arithmetic
means are 0.75 and 0.5: on the second request prev_total is again 0
because statistics.total_requests still lags self.request_count by one,
so the first accepted sample is dropped from every running mean. -/
theorem update_statistics_drops_first_sample :
    (runReqs (initState "t0" false)
        [(List.replicate 8 (0 : ℚ), (3/5 : ℚ), "t1"),
         (List.replicate 8 (1 : ℚ), (9/10 : ℚ), "t2")]).statistics.avg_confidence
      = 9/10
    ∧ ((3/5 : ℚ) + 9/10) / 2 = 3/4
    ∧ (9/10 : ℚ) ≠ 3/4
    ∧ (runReqs (initState "t0" false)
        [(List.replicate 8 (0 : ℚ), (3/5 : ℚ), "t1"),
         (List.replicate 8 (1 : ℚ), (9/10 : ℚ), "t2")]).statistics.avg_sensors
      = List.replicate 8 (F32.fin 1)
    ∧ ((0 : ℚ) + 1) / 2 = 1/2
    ∧ F32.fin 1 ≠ F32.fin (1/2) := by
  have hp1 : rulePrediction (F32.fin 0) = 0 := by
    norm_num [rulePrediction, F32.ge]
  have hp2 : rulePrediction (F32.fin 1) = 1 := by
    norm_num [rulePrediction, F32.ge]
  have e1 := receive_mkBody_eq (initState "t0" false)
    (List.replicate 8 (0 : ℚ)) (by decide) (3/5) "t1"
  have e2 := receive_mkBody_eq
    (acceptState (initState "t0" false)
      ((List.replicate 8 (0 : ℚ)).map F32.fin)
      (mkRes (List.replicate 8 (0 : ℚ)) (3/5)) "t1")
    (List.replicate 8 (1 : ℚ)) (by decide) (9/10) "t2"
  have hrun : runReqs (initState "t0" false)
      [(List.replicate 8 (0 : ℚ), (3/5 : ℚ), "t1"),
       (List.replicate 8 (1 : ℚ), (9/10 : ℚ), "t2")]
      = (receive_sensor_data
          ((receive_sensor_data (initState "t0" false)
            (mkBody (List.replicate 8 (0 : ℚ))) (3/5) "t1").2)
          (mkBody (List.replicate 8 (1 : ℚ))) (9/10) "t2").2 := rfl
  have hst : runReqs (initState "t0" false)
      [(List.replicate 8 (0 : ℚ), (3/5 : ℚ), "t1"),
       (List.replicate 8 (1 : ℚ), (9/10 : ℚ), "t2")]
      = acceptState
          (acceptState (initState "t0" false)
            ((List.replicate 8 (0 : ℚ)).map F32.fin)
            (mkRes (List.replicate 8 (0 : ℚ)) (3/5)) "t1")
          ((List.replicate 8 (1 : ℚ)).map F32.fin)
          (mkRes (List.replicate 8 (1 : ℚ)) (9/10)) "t2" := by
    rw [hrun, e1]
    dsimp only
    rw [e2]
  rw [hst]
  have hgd0 : (List.replicate 8 (0 : ℚ)).getD 5 0 = 0 := rfl
  have hgd1 : (List.replicate 8 (1 : ℚ)).getD 5 0 = 1 := rfl
  refine ⟨?_, by norm_num, by norm_num, ?_, by norm_num, ?_⟩
  · simp [acceptState, update_statistics, initState, mkRes,
      hgd0, hgd1, hp1, hp2]
  · simp [acceptState, update_statistics, initState, mkRes,
      hgd0, hgd1, hp1, hp2, List.map_replicate]
  · intro hcontra
    have : (1 : ℚ) = 1/2 := by injection hcontra
    norm_num at this

/-- C2 counterexample: the claim states run_inference returns the same
(prediction, confidence, probabilities) triple on two runs over the
same vector.  Two runs that draw 0.6 and 0.8 from
random.uniform(0.6, 0.9), both inside the documented range, return
different triples on the all-zero reading. -/
theorem run_inference_confidence_not_deterministic :
    (6/10 : ℚ) ≤ 3/5 ∧ (3/5 : ℚ) ≤ 9/10
    ∧ (6/10 : ℚ) ≤ 4/5 ∧ (4/5 : ℚ) ≤ 9/10
    ∧ run_inference (List.replicate 8 (F32.fin 0)) (3/5)
        ≠ run_inference (List.replicate 8 (F32.fin 0)) (4/5) := by
  refine ⟨by norm_num, by norm_num, by norm_num, by norm_num, ?_⟩
  have hx : (List.replicate 8 (F32.fin 0))[mq7_index]? = some (F32.fin 0) := by
    rw [mq7_index_eq]; rfl
  rw [run_inference_get hx (3/5), run_inference_get hx (4/5)]
  intro hcontra
  have hc : (3/5 : ℚ) = 4/5 := by
    have h2 := Option.some.inj hcontra
    exact congrArg InferenceResult.confidence h2
  norm_num at hc

/-- C2 (amended): under the rule-based variant only the predicted label
of run_inference is deterministic for a given Reading; it does not
depend on the randomized confidence draw, while confidence and the
probability vector do. -/
theorem run_inference_prediction_deterministic (sd : List F32)
    (c1 c2 : ℚ) :
    (run_inference sd c1).map InferenceResult.prediction
      = (run_inference sd c2).map InferenceResult.prediction := by
  cases hx : sd[mq7_index]? <;> simp [run_inference, hx]

/-- C3 counterexample: the claim designates channel index 6 as the
threshold channel.  On the vector with 0.9 at index 6 and 0.3
elsewhere (in particular at index 5, the actual position of MQ7 in
sensor_names), the classifier returns Nominal (0), not the Degraded (1)
the claim requires. -/
theorem mq7_threshold_index_six_refuted :
    (List.replicate 6 (F32.fin (3/10))
        ++ [F32.fin (9/10), F32.fin (3/10)]).length = 8
    ∧ (List.replicate 6 (F32.fin (3/10))
        ++ [F32.fin (9/10), F32.fin (3/10)])[6]? = some (F32.fin (9/10))
    ∧ (run_inference (List.replicate 6 (F32.fin (3/10))
        ++ [F32.fin (9/10), F32.fin (3/10)]) (3/4)).map
          InferenceResult.prediction = some 0
    ∧ (run_inference (List.replicate 6 (F32.fin (3/10))
        ++ [F32.fin (9/10), F32.fin (3/10)]) (3/4)).map
          InferenceResult.prediction ≠ some 1 := by
  have hx : (List.replicate 6 (F32.fin (3/10))
      ++ [F32.fin (9/10), F32.fin (3/10)])[mq7_index]?
      = some (F32.fin (3/10)) := by
    rw [mq7_index_eq]; rfl
  refine ⟨rfl, rfl, ?_, ?_⟩
  · rw [run_inference_get hx (3/4)]
    show some (rulePrediction (F32.fin (3/10))) = some 0
    norm_num [rulePrediction, F32.ge]
  · rw [run_inference_get hx (3/4)]
    show ¬ some (rulePrediction (F32.fin (3/10))) = some 1
    norm_num [rulePrediction, F32.ge]

/-- C3 (amended): the designated threshold channel is MQ7 at index 5.
For every 8-element vector of finite values the rule-based classifier
returns Degraded (1) exactly when the value at index 5 is at least 0.7,
and Nominal (0) otherwise; in particular 0.9 at index 5 gives Degraded
and 0.3 gives Nominal. -/
theorem run_inference_mq7_threshold (qs : List ℚ)
    (h : qs.length = num_sensors) (c : ℚ) :
    (run_inference (qs.map F32.fin) c).map InferenceResult.prediction
      = some (if 7/10 ≤ qs.getD 5 0 then 1 else 0) := by
  have h5 : 5 < qs.length := by rw [h]; decide
  have hx : (qs.map F32.fin)[mq7_index]? = some (F32.fin (qs.getD 5 0)) := by
    rw [mq7_index_eq, List.getElem?_map, List.getElem?_eq_getElem h5]
    simp [List.getD_eq_getElem?_getD, List.getElem?_eq_getElem h5]
  rw [run_inference_get hx c]
  simp [rulePrediction, F32.ge]

theorem run_inference_mq7_threshold_witness :
    ([(1 : ℚ), 1, 1, 1, 1, 9/10, 1, 1].length = num_sensors)
    ∧ (run_inference ([(1 : ℚ), 1, 1, 1, 1, 9/10, 1, 1].map F32.fin)
          (3/4)).map InferenceResult.prediction
        = some (if 7/10 ≤ [(1 : ℚ), 1, 1, 1, 1, 9/10, 1, 1].getD 5 0
            then 1 else 0) :=
  ⟨by decide, run_inference_mq7_threshold _ (by decide) _⟩

/-- C4 counterexample: the claim states the endpoint accepts objects of
the form with key "channels" and that the success body carries a field
named "label".  A well-formed 8-value payload under the key "channels"
is rejected with 400, the same payload under "sensors" is accepted with
200, and the success body has no "label" field (the label string is
under "interpretation"). -/
theorem channels_key_and_label_field_refuted :
    (receive_sensor_data (initState "t0" false)
        (some [("channels", SVal.arr (List.replicate 8 (JVal.num 1)))])
        (3/4) "t1").1.1 = 400
    ∧ (receive_sensor_data (initState "t0" false)
        (some [("sensors", SVal.arr (List.replicate 8 (JVal.num 1)))])
        (3/4) "t1").1.1 = 200
    ∧ (receive_sensor_data (initState "t0" false)
        (some [("sensors", SVal.arr (List.replicate 8 (JVal.num 1)))])
        (3/4) "t1").1.2.lookup "label" = none := by
  exact ⟨rfl, rfl, rfl⟩

/-- C4 (amended): the ingestion endpoint accepts a JSON object of the
form with key "sensors" holding exactly 8 convertible values and then
responds 200 with a body containing success, prediction, confidence,
interpretation (the label string) and request_id; every non-200
response is a 400 with a human-readable error field (validation
failure) or a 500 with an error field (classification failure). -/
theorem receive_sensor_data_contract (st : ServerState)
    (body : Option (List (String × SVal))) (c : ℚ) (ts : String) :
    (∀ kvs vals, body = some kvs
        → kvs.lookup "sensors" = some (SVal.arr vals)
        → vals.length = num_sensors
        → (toF32List vals).isSome
        → (receive_sensor_data st body c ts).1.1 = 200)
    ∧ ((receive_sensor_data st body c ts).1.1 = 200 →
        (receive_sensor_data st body c ts).1.2.lookup "success"
            = some (RVal.b true)
        ∧ (∃ p, (receive_sensor_data st body c ts).1.2.lookup "prediction"
            = some (RVal.n p))
        ∧ (∃ q, (receive_sensor_data st body c ts).1.2.lookup "confidence"
            = some (RVal.q q))
        ∧ (∃ s, (receive_sensor_data st body c ts).1.2.lookup "interpretation"
            = some (RVal.s s))
        ∧ (receive_sensor_data st body c ts).1.2.lookup "request_id"
            = some (RVal.n (st.request_count + 1)))
    ∧ ((receive_sensor_data st body c ts).1.1 ≠ 200 →
        ((receive_sensor_data st body c ts).1.1 = 400
          ∧ ∃ m, (receive_sensor_data st body c ts).1.2.lookup "error"
              = some (RVal.s m))
        ∨ ((receive_sensor_data st body c ts).1.1 = 500
          ∧ ∃ m, (receive_sensor_data st body c ts).1.2.lookup "error"
              = some (RVal.s m))) := by
  refine ⟨?_, ?_, ?_⟩
  · intro kvs vals hb hlk hlen hsome
    subst hb
    obtain ⟨sd, htf⟩ := Option.isSome_iff_exists.mp hsome
    obtain ⟨res, hri, heq⟩ := receive_valid_eq st kvs vals sd c ts hlk hlen htf
    rw [heq]
    rfl
  · intro h200
    rcases receive_cases st body c ts with ⟨sd, res, hri, heq⟩ | ⟨m, heq⟩ | heq
    · rw [heq]
      exact ⟨rfl, ⟨res.prediction, rfl⟩, ⟨res.confidence, rfl⟩,
        ⟨interpret_prediction res.prediction, rfl⟩, rfl⟩
    · rw [heq] at h200; simp at h200
    · rw [heq] at h200; simp at h200
  · intro hne
    rcases receive_cases st body c ts with ⟨sd, res, hri, heq⟩ | ⟨m, heq⟩ | heq
    · exact absurd (by rw [heq]; rfl) hne
    · left; rw [heq]; exact ⟨rfl, m, rfl⟩
    · right; rw [heq]; exact ⟨rfl, "Inference failed", rfl⟩

theorem receive_sensor_data_contract_witness :
    (receive_sensor_data (initState "t0" false)
        (some [("sensors", SVal.arr (List.replicate 8 (JVal.num 1)))])
        (3/4) "t1").1.1 = 200
    ∧ (receive_sensor_data (initState "t0" false)
        (some [("sensors", SVal.arr (List.replicate 8 (JVal.num 1)))])
        (3/4) "t1").1.2.lookup "success" = some (RVal.b true)
    ∧ (∃ p, (receive_sensor_data (initState "t0" false)
        (some [("sensors", SVal.arr (List.replicate 8 (JVal.num 1)))])
        (3/4) "t1").1.2.lookup "prediction" = some (RVal.n p))
    ∧ (∃ q, (receive_sensor_data (initState "t0" false)
        (some [("sensors", SVal.arr (List.replicate 8 (JVal.num 1)))])
        (3/4) "t1").1.2.lookup "confidence" = some (RVal.q q))
    ∧ (∃ s, (receive_sensor_data (initState "t0" false)
        (some [("sensors", SVal.arr (List.replicate 8 (JVal.num 1)))])
        (3/4) "t1").1.2.lookup "interpretation" = some (RVal.s s))
    ∧ (receive_sensor_data (initState "t0" false)
        (some [("sensors", SVal.arr (List.replicate 8 (JVal.num 1)))])
        (3/4) "t1").1.2.lookup "request_id"
        = some (RVal.n ((initState "t0" false).request_count + 1)) := by
  have h := receive_sensor_data_contract (initState "t0" false)
    (some [("sensors", SVal.arr (List.replicate 8 (JVal.num 1)))])
    (3/4) "t1"
  have h200 := h.1 _ _ rfl rfl (by decide) (by decide)
  obtain ⟨hs, hp, hc, hi, hr⟩ := h.2.1 h200
  exact ⟨h200, hs, hp, hc, hi, hr⟩

/-- C5: a payload whose sensors list has arity other than the
configured 8 is rejected with 400 carrying the arity-mismatch message,
and the whole server state (request counter, statistics, logs,
latest data, every chart series) is returned unchanged. -/
theorem arity_mismatch_rejected (st : ServerState)
    (kvs : List (String × SVal)) (vals : List JVal) (c : ℚ) (ts : String)
    (hlk : kvs.lookup "sensors" = some (SVal.arr vals))
    (hlen : vals.length ≠ num_sensors) :
    receive_sensor_data st (some kvs) c ts
      = ((400, [("error", RVal.s ("Expected " ++ toString num_sensors
            ++ " sensor values, got " ++ toString vals.length))]), st) := by
  have he := lookup_isEmpty_false hlk
  simp [receive_sensor_data, he, hlk, hlen]

theorem arity_mismatch_rejected_witness :
    (([("sensors", SVal.arr (List.replicate 5 (JVal.num 1)))]
        : List (String × SVal)).lookup "sensors"
      = some (SVal.arr (List.replicate 5 (JVal.num 1))))
    ∧ (List.replicate 5 (JVal.num 1)).length ≠ num_sensors
    ∧ receive_sensor_data (initState "t0" false)
        (some [("sensors", SVal.arr (List.replicate 5 (JVal.num 1)))])
        (3/4) "t1"
      = ((400, [("error", RVal.s ("Expected " ++ toString num_sensors
            ++ " sensor values, got "
            ++ toString (List.replicate 5 (JVal.num 1)).length))]),
         initState "t0" false) :=
  ⟨rfl, by decide,
   arity_mismatch_rejected (initState "t0" false) _ _ (3/4) "t1" rfl (by decide)⟩

/-- C6: over any sequence of accepted requests, every chart series
(timestamps, the 8 per-channel series, predictions, confidences) holds
exactly the last min(n, 100) appended entries in order: each series
equals the tail of the full per-request sequence, so all series are
index-aligned (entry i of every series comes from the same request),
every length is at most 100, and once more than 100 requests are
accepted the length is exactly 100 and the oldest surviving entry is
the (n - 100 + 1)-th appended one. -/
theorem history_bounded_fifo_aligned (ts0 : String) (ml : Bool)
    (rs : List (List ℚ × ℚ × String))
    (h8 : ∀ r ∈ rs, r.1.length = num_sensors) :
    (runReqs (initState ts0 ml) rs).chart_timestamps
        = lastK (rs.map fun r => r.2.2)
    ∧ (runReqs (initState ts0 ml) rs).chart_predictions
        = lastK (rs.map fun r => rulePrediction (F32.fin (r.1.getD 5 0)))
    ∧ (runReqs (initState ts0 ml) rs).chart_confidences
        = lastK (rs.map fun r => r.2.1)
    ∧ (runReqs (initState ts0 ml) rs).chart_sensor_values
        = (List.range num_sensors).map
            (fun i => lastK (rs.map fun r => F32.fin (r.1.getD i 0)))
    ∧ (runReqs (initState ts0 ml) rs).chart_timestamps.length
        = min rs.length max_data_points
    ∧ (runReqs (initState ts0 ml) rs).chart_timestamps.length
        ≤ max_data_points
    ∧ (max_data_points < rs.length →
        (runReqs (initState ts0 ml) rs).chart_timestamps.length
            = max_data_points
        ∧ (runReqs (initState ts0 ml) rs).chart_timestamps.head?
            = (rs.map fun r => r.2.2)[rs.length - max_data_points]?
        ∧ (runReqs (initState ts0 ml) rs).chart_predictions.head?
            = (rs.map fun r =>
                rulePrediction (F32.fin (r.1.getD 5 0)))[rs.length - max_data_points]?
        ∧ (runReqs (initState ts0 ml) rs).chart_confidences.head?
            = (rs.map fun r => r.2.1)[rs.length - max_data_points]?) := by
  obtain ⟨ht, hp, hc, hlen, hsv⟩ := runReqs_chart ts0 ml rs h8
  have hfull : (runReqs (initState ts0 ml) rs).chart_sensor_values
      = (List.range num_sensors).map
          (fun i => lastK (rs.map fun r => F32.fin (r.1.getD i 0))) := by
    apply List.ext_getElem?
    intro n
    by_cases hn : n < num_sensors
    · rw [hsv n hn, List.getElem?_map,
        List.getElem?_eq_getElem
          (show n < (List.range num_sensors).length by
            rw [List.length_range]; exact hn)]
      rw [List.getElem_range]
      rfl
    · rw [List.getElem?_eq_none (by rw [hlen]; omega),
        List.getElem?_eq_none (by rw [List.length_map, List.length_range]; omega)]
  have hlen2 : (runReqs (initState ts0 ml) rs).chart_timestamps.length
      = min rs.length max_data_points := by
    rw [ht, lastK_length, List.length_map]
  refine ⟨ht, hp, hc, hfull, hlen2, ?_, ?_⟩
  · rw [hlen2]; exact min_le_right _ _
  · intro hgt
    refine ⟨by rw [hlen2]; omega, ?_, ?_, ?_⟩
    · rw [ht, lastK_head, List.length_map]
    · rw [hp, lastK_head, List.length_map]
    · rw [hc, lastK_head, List.length_map]

theorem history_bounded_fifo_aligned_witness :
    (∀ r ∈ ([(List.replicate 8 (1 : ℚ), (3/4 : ℚ), "t1")]
        : List (List ℚ × ℚ × String)), r.1.length = num_sensors)
    ∧ ((runReqs (initState "t0" false)
          [(List.replicate 8 (1 : ℚ), (3/4 : ℚ), "t1")]).chart_timestamps
        = lastK ([(List.replicate 8 (1 : ℚ), (3/4 : ℚ), "t1")].map
            fun r => r.2.2)
      ∧ (runReqs (initState "t0" false)
          [(List.replicate 8 (1 : ℚ), (3/4 : ℚ), "t1")]).chart_predictions
        = lastK ([(List.replicate 8 (1 : ℚ), (3/4 : ℚ), "t1")].map
            fun r => rulePrediction (F32.fin (r.1.getD 5 0)))
      ∧ (runReqs (initState "t0" false)
          [(List.replicate 8 (1 : ℚ), (3/4 : ℚ), "t1")]).chart_confidences
        = lastK ([(List.replicate 8 (1 : ℚ), (3/4 : ℚ), "t1")].map
            fun r => r.2.1)
      ∧ (runReqs (initState "t0" false)
          [(List.replicate 8 (1 : ℚ), (3/4 : ℚ), "t1")]).chart_sensor_values
        = (List.range num_sensors).map
            (fun i => lastK ([(List.replicate 8 (1 : ℚ), (3/4 : ℚ), "t1")].map
              fun r => F32.fin (r.1.getD i 0)))
      ∧ (runReqs (initState "t0" false)
          [(List.replicate 8 (1 : ℚ), (3/4 : ℚ), "t1")]).chart_timestamps.length
        = min ([(List.replicate 8 (1 : ℚ), (3/4 : ℚ), "t1")]
            : List (List ℚ × ℚ × String)).length max_data_points
      ∧ (runReqs (initState "t0" false)
          [(List.replicate 8 (1 : ℚ), (3/4 : ℚ), "t1")]).chart_timestamps.length
        ≤ max_data_points
      ∧ (max_data_points < ([(List.replicate 8 (1 : ℚ), (3/4 : ℚ), "t1")]
            : List (List ℚ × ℚ × String)).length →
          (runReqs (initState "t0" false)
              [(List.replicate 8 (1 : ℚ), (3/4 : ℚ), "t1")]).chart_timestamps.length
            = max_data_points
          ∧ (runReqs (initState "t0" false)
              [(List.replicate 8 (1 : ℚ), (3/4 : ℚ), "t1")]).chart_timestamps.head?
            = ([(List.replicate 8 (1 : ℚ), (3/4 : ℚ), "t1")].map fun r => r.2.2)[
                ([(List.replicate 8 (1 : ℚ), (3/4 : ℚ), "t1")]
                  : List (List ℚ × ℚ × String)).length - max_data_points]?
          ∧ (runReqs (initState "t0" false)
              [(List.replicate 8 (1 : ℚ), (3/4 : ℚ), "t1")]).chart_predictions.head?
            = ([(List.replicate 8 (1 : ℚ), (3/4 : ℚ), "t1")].map
                fun r => rulePrediction (F32.fin (r.1.getD 5 0)))[
                ([(List.replicate 8 (1 : ℚ), (3/4 : ℚ), "t1")]
                  : List (List ℚ × ℚ × String)).length - max_data_points]?
          ∧ (runReqs (initState "t0" false)
              [(List.replicate 8 (1 : ℚ), (3/4 : ℚ), "t1")]).chart_confidences.head?
            = ([(List.replicate 8 (1 : ℚ), (3/4 : ℚ), "t1")].map
                fun r => r.2.1)[
                ([(List.replicate 8 (1 : ℚ), (3/4 : ℚ), "t1")]
                  : List (List ℚ × ℚ × String)).length - max_data_points]?)) :=
  ⟨by decide,
   history_bounded_fifo_aligned "t0" false
     [(List.replicate 8 (1 : ℚ), (3/4 : ℚ), "t1")] (by decide)⟩

/-- C7 counterexample: the claim states any payload containing a
non-finite value is rejected with 400 and no state change.  A payload
of 8 values whose last entry is NaN is accepted: the endpoint answers
200 and the request counter moves from 0 to 1. -/
theorem nan_payload_accepted :
    (receive_sensor_data (initState "t0" false)
        (some [("sensors", SVal.arr
          [JVal.num 1, JVal.num 1, JVal.num 1, JVal.num 1,
           JVal.num 1, JVal.num 1, JVal.num 1, JVal.nan])])
        (3/4) "t1").1.1 = 200
    ∧ (receive_sensor_data (initState "t0" false)
        (some [("sensors", SVal.arr
          [JVal.num 1, JVal.num 1, JVal.num 1, JVal.num 1,
           JVal.num 1, JVal.num 1, JVal.num 1, JVal.nan])])
        (3/4) "t1").2.request_count = 1
    ∧ (receive_sensor_data (initState "t0" false)
        (some [("sensors", SVal.arr
          [JVal.num 1, JVal.num 1, JVal.num 1, JVal.num 1,
           JVal.num 1, JVal.num 1, JVal.num 1, JVal.nan])])
        (3/4) "t1").2.request_count
      ≠ (initState "t0" false).request_count := by
  refine ⟨rfl, rfl, ?_⟩
  intro hcontra
  have h10 : (1 : Nat) = 0 := hcontra
  simp at h10

/-- C7 (amended): validation rejects a payload that is not a sequence
of exactly 8 float32-convertible values with a 400 response that leaves
the entire shared state unchanged, but no finiteness check is made: a
payload of exactly 8 convertible values is accepted with 200 even when
it contains NaN or infinities, so accepted Readings may contain
non-finite values. -/
theorem validation_no_mutation_nonfinite_accepted (st : ServerState)
    (body : Option (List (String × SVal))) (c : ℚ) (ts : String) :
    ((receive_sensor_data st body c ts).1.1 = 400 →
      (receive_sensor_data st body c ts).2 = st)
    ∧ (∀ kvs vals sd, body = some kvs
        → kvs.lookup "sensors" = some (SVal.arr vals)
        → vals.length = num_sensors
        → toF32List vals = some sd
        → (receive_sensor_data st body c ts).1.1 = 200) := by
  constructor
  · intro h400
    rcases receive_cases st body c ts with ⟨sd, res, hri, heq⟩ | ⟨m, heq⟩ | heq
    · rw [heq] at h400
      simp [acceptResp] at h400
    · rw [heq]
    · rw [heq] at h400
      simp at h400
  · intro kvs vals sd hb hlk hlen htf
    subst hb
    obtain ⟨res, hri, heq⟩ := receive_valid_eq st kvs vals sd c ts hlk hlen htf
    rw [heq]
    rfl

theorem validation_no_mutation_nonfinite_accepted_witness :
    (([("sensors", SVal.arr
        [JVal.num 1, JVal.num 1, JVal.num 1, JVal.num 1,
         JVal.num 1, JVal.num 1, JVal.num 1, JVal.nan])]
      : List (String × SVal)).lookup "sensors"
      = some (SVal.arr
        [JVal.num 1, JVal.num 1, JVal.num 1, JVal.num 1,
         JVal.num 1, JVal.num 1, JVal.num 1, JVal.nan]))
    ∧ ([JVal.num 1, JVal.num 1, JVal.num 1, JVal.num 1,
        JVal.num 1, JVal.num 1, JVal.num 1, JVal.nan]
        : List JVal).length = num_sensors
    ∧ toF32List
        [JVal.num 1, JVal.num 1, JVal.num 1, JVal.num 1,
         JVal.num 1, JVal.num 1, JVal.num 1, JVal.nan]
      = some [F32.fin 1, F32.fin 1, F32.fin 1, F32.fin 1,
              F32.fin 1, F32.fin 1, F32.fin 1, F32.nan]
    ∧ (receive_sensor_data (initState "t0" false)
        (some [("sensors", SVal.arr
          [JVal.num 1, JVal.num 1, JVal.num 1, JVal.num 1,
           JVal.num 1, JVal.num 1, JVal.num 1, JVal.nan])])
        (3/4) "t1").1.1 = 200 :=
  ⟨rfl, rfl, rfl,
   (validation_no_mutation_nonfinite_accepted (initState "t0" false)
      (some [("sensors", SVal.arr
        [JVal.num 1, JVal.num 1, JVal.num 1, JVal.num 1,
         JVal.num 1, JVal.num 1, JVal.num 1, JVal.nan])])
      (3/4) "t1").2 _ _ _ rfl rfl rfl rfl⟩

/-- C8: clear_data empties every chart series, zeroes the per-label
counts, the average confidence and the per-channel averages, keeps
statistics.total_requests equal to the lifetime request_count, leaves
request_count itself untouched, and the health endpoint reports the
same lifetime total before and after the clear. -/
theorem clear_preserves_lifetime_counter (st : ServerState)
    (now now2 : String) :
    ((clear_data st now).2).chart_timestamps = []
    ∧ ((clear_data st now).2).chart_predictions = []
    ∧ ((clear_data st now).2).chart_confidences = []
    ∧ ((clear_data st now).2).chart_sensor_values.all List.isEmpty = true
    ∧ ((clear_data st now).2).statistics.fresh_count = 0
    ∧ ((clear_data st now).2).statistics.degraded_count = 0
    ∧ ((clear_data st now).2).statistics.error_count = 0
    ∧ ((clear_data st now).2).statistics.avg_confidence = 0
    ∧ ((clear_data st now).2).statistics.avg_sensors
        = List.replicate num_sensors (F32.fin 0)
    ∧ ((clear_data st now).2).statistics.total_requests = st.request_count
    ∧ ((clear_data st now).2).request_count = st.request_count
    ∧ (health_check ((clear_data st now).2) now2).2.lookup "total_requests"
        = (health_check st now2).2.lookup "total_requests"
    ∧ (health_check ((clear_data st now).2) now2).2.lookup "total_requests"
        = some (RVal.n st.request_count) := by
  refine ⟨rfl, rfl, rfl, ?_, rfl, rfl, rfl, rfl, rfl, rfl, rfl, rfl, rfl⟩
  show (st.chart_sensor_values.map fun _ => ([] : List F32)).all
      List.isEmpty = true
  rw [List.all_map]
  simp [List.all_eq_true, Function.comp]

/-- C9: for every 8-element reading of finite values and every
confidence draw inside the range of random.uniform(0.6, 0.9), the
classifier succeeds with a prediction in the closed label set, a
confidence in the unit interval, and a 3-entry probability vector that
sums to 1 exactly and whose entry at the predicted index equals the
returned confidence. -/
theorem run_inference_postconditions (qs : List ℚ)
    (h : qs.length = num_sensors) (c : ℚ)
    (hc1 : 6/10 ≤ c) (hc2 : c ≤ 9/10) :
    ∃ res, run_inference (qs.map F32.fin) c = some res
      ∧ (res.prediction = 0 ∨ res.prediction = 1 ∨ res.prediction = 2)
      ∧ 0 ≤ res.confidence ∧ res.confidence ≤ 1
      ∧ res.probabilities.length = 3
      ∧ res.probabilities.sum = 1
      ∧ res.probabilities[res.prediction]? = some res.confidence := by
  have h5 : 5 < qs.length := by rw [h]; decide
  have hx : (qs.map F32.fin)[mq7_index]? = some (F32.fin (qs.getD 5 0)) := by
    rw [mq7_index_eq, List.getElem?_map, List.getElem?_eq_getElem h5]
    simp [List.getD_eq_getElem?_getD, List.getElem?_eq_getElem h5]
  refine ⟨_, run_inference_get hx c, ?_, ?_, ?_, ?_, ?_, ?_⟩
  · show rulePrediction (F32.fin (qs.getD 5 0)) = 0 ∨ _ ∨ _
    rw [rulePrediction]
    split
    · right; left; rfl
    · left; rfl
  · show (0 : ℚ) ≤ c
    linarith
  · show c ≤ 1
    linarith
  · show (ruleProbs (rulePrediction (F32.fin (qs.getD 5 0))) c).length = 3
    rw [ruleProbs]
    split <;> rfl
  · show (ruleProbs (rulePrediction (F32.fin (qs.getD 5 0))) c).sum = 1
    rw [ruleProbs]
    split <;> simp
  · show (ruleProbs (rulePrediction (F32.fin (qs.getD 5 0))) c)[
        rulePrediction (F32.fin (qs.getD 5 0))]? = some c
    by_cases hb : (F32.fin (qs.getD 5 0)).ge (7/10) = true
    · have hr : rulePrediction (F32.fin (qs.getD 5 0)) = 1 := by
        rw [rulePrediction, if_pos hb]
      rw [hr, ruleProbs]
      simp
    · have hr : rulePrediction (F32.fin (qs.getD 5 0)) = 0 := by
        rw [rulePrediction, if_neg hb]
      rw [hr, ruleProbs]
      simp

theorem run_inference_postconditions_witness :
    (List.replicate 8 (1 : ℚ)).length = num_sensors
    ∧ (6/10 : ℚ) ≤ 3/4 ∧ (3/4 : ℚ) ≤ 9/10
    ∧ ∃ res, run_inference ((List.replicate 8 (1 : ℚ)).map F32.fin) (3/4)
        = some res
      ∧ (res.prediction = 0 ∨ res.prediction = 1 ∨ res.prediction = 2)
      ∧ 0 ≤ res.confidence ∧ res.confidence ≤ 1
      ∧ res.probabilities.length = 3
      ∧ res.probabilities.sum = 1
      ∧ res.probabilities[res.prediction]? = some res.confidence :=
  ⟨by decide, by norm_num, by norm_num,
   run_inference_postconditions (List.replicate 8 (1 : ℚ)) (by decide)
     (3/4) (by norm_num) (by norm_num)⟩

/-- C10: the ERROR class is unreachable: every successful inference
predicts 0 or 1 and never 2, its interpretation is FRESH or DEGRADED
(never ERROR or UNKNOWN), every successful response carries one of
those two interpretations, and across any event sequence of posts and
clears from startup the error_count statistic stays 0. -/
theorem error_class_unreachable (sd : List F32) (c : ℚ)
    (res : InferenceResult) (h : run_inference sd c = some res)
    (ts0 : String) (ml : Bool) (es : List Event)
    (st : ServerState) (body : Option (List (String × SVal)))
    (c2 : ℚ) (ts : String) :
    (res.prediction = 0 ∨ res.prediction = 1)
    ∧ (interpret_prediction res.prediction = "FRESH"
        ∨ interpret_prediction res.prediction = "DEGRADED")
    ∧ (runEvents (initState ts0 ml) es).statistics.error_count = 0
    ∧ ((receive_sensor_data st body c2 ts).1.1 = 200 →
        (receive_sensor_data st body c2 ts).1.2.lookup "interpretation"
            = some (RVal.s "FRESH")
        ∨ (receive_sensor_data st body c2 ts).1.2.lookup "interpretation"
            = some (RVal.s "DEGRADED")) := by
  have hcases := run_inference_prediction_cases h
  refine ⟨hcases, ?_, ?_, ?_⟩
  · rcases hcases with h0 | h1
    · left; rw [h0]; rfl
    · right; rw [h1]; rfl
  · exact runEvents_error_count es _ rfl
  · intro h200
    rcases receive_cases st body c2 ts with ⟨sd2, res2, hri2, heq⟩ | ⟨m, heq⟩ | heq
    · rw [heq]
      rcases run_inference_prediction_cases hri2 with h0 | h1
      · left
        rw [show (acceptResp st res2, acceptState st sd2 res2 ts).1.2.lookup
            "interpretation"
            = some (RVal.s (interpret_prediction res2.prediction)) from rfl, h0]
        rfl
      · right
        rw [show (acceptResp st res2, acceptState st sd2 res2 ts).1.2.lookup
            "interpretation"
            = some (RVal.s (interpret_prediction res2.prediction)) from rfl, h1]
        rfl
    · rw [heq] at h200
      simp at h200
    · rw [heq] at h200
      simp at h200

theorem error_class_unreachable_witness :
    run_inference (List.replicate 8 (F32.fin 0)) (3/4)
      = some ⟨0, 3/4, [3/4, 1 - 3/4, 0]⟩
    ∧ (((⟨0, 3/4, [3/4, 1 - 3/4, 0]⟩ : InferenceResult).prediction = 0
        ∨ (⟨0, 3/4, [3/4, 1 - 3/4, 0]⟩ : InferenceResult).prediction = 1)
      ∧ (interpret_prediction
            (⟨0, 3/4, [3/4, 1 - 3/4, 0]⟩ : InferenceResult).prediction = "FRESH"
        ∨ interpret_prediction
            (⟨0, 3/4, [3/4, 1 - 3/4, 0]⟩ : InferenceResult).prediction
              = "DEGRADED")
      ∧ (runEvents (initState "t0" false) []).statistics.error_count = 0
      ∧ ((receive_sensor_data (initState "t0" false)
            (some [("sensors", SVal.arr (List.replicate 8 (JVal.num 1)))])
            (3/4) "t1").1.1 = 200 →
          (receive_sensor_data (initState "t0" false)
            (some [("sensors", SVal.arr (List.replicate 8 (JVal.num 1)))])
            (3/4) "t1").1.2.lookup "interpretation" = some (RVal.s "FRESH")
          ∨ (receive_sensor_data (initState "t0" false)
            (some [("sensors", SVal.arr (List.replicate 8 (JVal.num 1)))])
            (3/4) "t1").1.2.lookup "interpretation"
              = some (RVal.s "DEGRADED"))) := by
  have hx : (List.replicate 8 (F32.fin 0))[mq7_index]? = some (F32.fin 0) := by
    rw [mq7_index_eq]; rfl
  have hri : run_inference (List.replicate 8 (F32.fin 0)) (3/4)
      = some ⟨0, 3/4, [3/4, 1 - 3/4, 0]⟩ := by
    rw [run_inference_get hx (3/4)]
    have hp : rulePrediction (F32.fin 0) = 0 := by
      norm_num [rulePrediction, F32.ge]
    rw [ruleProbs, hp]
    norm_num
  exact ⟨hri,
    error_class_unreachable (List.replicate 8 (F32.fin 0)) (3/4)
      ⟨0, 3/4, [3/4, 1 - 3/4, 0]⟩ hri "t0" false []
      (initState "t0" false)
      (some [("sensors", SVal.arr (List.replicate 8 (JVal.num 1)))])
      (3/4) "t1"⟩

end ESP32
